import Mathlib

/-!
Verification of the gccjit-rs wrapper model.

The development shallowly embeds the wrapper source (src/ty.rs, src/ctx.rs,
src/block.rs, src/rvalue.rs, src/structs.rs, src/field.rs, src/function.rs,
src/location.rs, src/lvalue.rs, src/parameter.rs, src/object.rs) together with
the engine-side discipline that the specification describes for the external
compilation engine (block termination, one-time struct field attachment,
compiled-symbol lookup, switch dispatch), which has no code under src/.
-/

namespace GccjitRs

/-- The IR handle structs the wrapper declares, one constructor per Rust
struct: Type (ty.rs), Location (location.rs), Block and Case (block.rs),
RValue (rvalue.rs), LValue (lvalue.rs), Field (field.rs), Function
(function.rs), Parameter (parameter.rs), Struct (structs.rs) and Object
(object.rs). -/
inductive HandleKind
  | ty
  | location
  | block
  | switchCase
  | rvalue
  | lvalue
  | field
  | function
  | parameter
  | structHandle
  | object
  deriving DecidableEq

/-- Whether the Rust declaration of the handle struct carries a PhantomData
lifetime marker tying the handle to the producing Context. Transliterated
from the struct declarations: Type (ty.rs) and Location (location.rs) each
declare a marker field of type PhantomData of a Context reference; Block and
Case (block.rs, where the marker field of Case is commented out), RValue
(rvalue.rs), LValue (lvalue.rs), Field (field.rs), Function (function.rs),
Parameter (parameter.rs), Struct (structs.rs) and Object (object.rs) declare
only the raw engine pointer. -/
def hasCtxLifetimeMarker : HandleKind → Bool
  | .ty => true
  | .location => true
  | _ => false

/-- The handle kinds enumerated by the claim that every handle produced
through a Context is statically tied to it: Type, Value (RValue), Block,
Function, Field, Parameter, Struct. -/
def claimedTiedHandles : List HandleKind :=
  [.ty, .rvalue, .block, .function, .field, .parameter, .structHandle]

/-- BinaryOp from block.rs: the binary operations gccjit can codegen. -/
inductive BinOp
  | Plus
  | Minus
  | Mult
  | Divide
  | Modulo
  | BitwiseAnd
  | BitwiseXor
  | BitwiseOr
  | LogicalAnd
  | LogicalOr
  | LShift
  | RShift
  deriving DecidableEq

/-- Opaque engine handle for an rvalue. -/
abbrev RValueId := Nat

/-- Opaque engine handle for an lvalue. -/
abbrev LValueId := Nat

/-- Opaque engine handle for a basic block. -/
abbrev BlockId := Nat

/-- A switch case as built by Context::new_case (ctx.rs): a minimum bound, a
maximum bound (constant rvalues, modelled by their integer values per the
specification, which requires constant bounds), and a destination block. -/
structure SwitchCase where
  min : Int
  max : Int
  dest : BlockId
  deriving DecidableEq

/-- A non-terminating statement of a block, one constructor per add method of
Block (block.rs): add_eval, add_assignment, add_assignment_op, add_comment. -/
inductive Stmt
  | addEval (v : RValueId)
  | addAssignment (target : LValueId) (v : RValueId)
  | addAssignmentOp (target : LValueId) (op : BinOp) (v : RValueId)
  | addComment (msg : String)
  deriving DecidableEq

/-- A block terminator, one constructor per end method of Block (block.rs):
end_with_conditional, end_with_jump, end_with_switch, end_with_return,
end_with_void_return. -/
inductive Terminator
  | endWithConditional (cond : RValueId) (onTrue onFalse : BlockId)
  | endWithJump (target : BlockId)
  | endWithSwitch (expr : RValueId) (defaultBlock : BlockId) (cases : List SwitchCase)
  | endWithReturn (v : RValueId)
  | endWithVoidReturn
  deriving DecidableEq

/-- Modelled from the spec: the engine-side state of a basic block (the
enforcement lives in the external engine, not under src/) — an ordered list
of non-terminating statements and at most one terminator. -/
structure BlockState where
  stmts : List Stmt
  terminator : Option Terminator
  deriving DecidableEq

/-- A block is open exactly when it has no terminator yet. -/
def BlockState.isOpen (b : BlockState) : Bool :=
  b.terminator.isNone

/-- Modelled from the spec: a newly created block (Function::new_block) has no
statements and no terminator. -/
def newBlock : BlockState :=
  ⟨[], none⟩

/-- Modelled from the spec: appending a statement to a block succeeds only
while the block is open (a terminated block accepts no further statements;
the check is the engine's, not the wrapper's). -/
def addStatement (b : BlockState) (s : Stmt) : Option BlockState :=
  if b.terminator.isNone then some ⟨b.stmts ++ [s], none⟩ else none

/-- Modelled from the spec: terminating a block succeeds only while the block
is open (a terminated block accepts no second terminator; the check is the
engine's, not the wrapper's). -/
def endWith (b : BlockState) (t : Terminator) : Option BlockState :=
  if b.terminator.isNone then some ⟨b.stmts, some t⟩ else none

/-- A field of a composite type, as built by Context::new_field (ctx.rs):
a name and a type handle. -/
structure FieldDef where
  name : String
  ty : Nat
  deriving DecidableEq

/-- Modelled from the spec: the engine-side definition of a struct type (the
engine is not under src/) — a name plus either an attached field list or, for
an opaque struct, no fields yet. -/
structure StructDef where
  name : String
  fields : Option (List FieldDef)
  deriving DecidableEq

/-- Context::new_struct_type (ctx.rs): builds a complete struct in one call;
the returned struct is final. -/
def new_struct_type (name : String) (fields : List FieldDef) : StructDef :=
  ⟨name, some fields⟩

/-- Context::new_opaque_struct_type (ctx.rs): a named struct whose fields are
not yet known. -/
def new_opaque_struct_type (name : String) : StructDef :=
  ⟨name, none⟩

/-- Modelled from the spec: Struct::set_fields (structs.rs forwards to
gcc_jit_struct_set_fields, whose discipline is the engine's, not under src/)
— attaching fields succeeds only on a struct that is still opaque, and a
struct that already has fields rejects the call. -/
def set_fields (s : StructDef) (fs : List FieldDef) : Option StructDef :=
  match s.fields with
  | none => some ⟨s.name, some fs⟩
  | some _ => none

/-- Modelled from the spec: a compiled result maps the names of the functions
and globals compiled by the producing Context to machine addresses; the
address 0 stands for the null pointer. -/
structure CompiledResult where
  functions : List (String × Nat)
  globals : List (String × Nat)

/-- CompileResult::get_function (ctx.rs): resolves a compiled function by
name; a name the producing Context did not compile yields the null pointer
(the lookup is total — it never aborts). -/
def get_function (r : CompiledResult) (name : String) : Nat :=
  (r.functions.lookup name).getD 0

/-- CompileResult::get_global (ctx.rs): resolves a compiled global by name; a
name the producing Context did not compile yields the null pointer (the
lookup is total — it never aborts). -/
def get_global (r : CompiledResult) (name : String) : Nat :=
  (r.globals.lookup name).getD 0

/-- Calls into the engine that release resources. -/
inductive EngineCall
  | resultRelease (ptr : Nat)
  deriving DecidableEq

/-- The Drop implementation for CompileResult (ctx.rs): passes the stored
result pointer to gcc_jit_result_release, once. Rust runs Drop exactly once
per value, and CompileResult is neither Copy nor Clone. -/
def compileResultDrop (ptr : Nat) : List EngineCall :=
  [.resultRelease ptr]

/-- Every public wrapper type of the crate: the Context, the CompileResult
and the IR handles. -/
inductive WrapperType
  | context
  | compileResult
  | handle (k : HandleKind)
  deriving DecidableEq

/-- Which wrapper types implement Drop in the source: only CompileResult
(ctx.rs); no other type in the crate has a Drop implementation, so nothing
else requires explicit teardown. -/
def hasDropImpl : WrapperType → Bool
  | .compileResult => true
  | _ => false

/-- The gcc_jit_types enum values named by the typeable_def instances in
ty.rs. -/
inductive GccTypeEnum
  | VOID
  | BOOL
  | CHAR
  | SIGNED_CHAR
  | UNSIGNED_CHAR
  | SHORT
  | UNSIGNED_SHORT
  | INT
  | UNSIGNED_INT
  | LONG
  | UNSIGNED_LONG
  | FLOAT
  | DOUBLE
  | SIZE_T
  deriving DecidableEq

/-- Engine IR types reachable from the Typeable impls of ty.rs: a primitive
from gcc_jit_context_get_type, a pointer from gcc_jit_type_get_pointer, and a
const qualification from gcc_jit_type_get_const. -/
inductive IRType
  | prim (g : GccTypeEnum)
  | pointer (t : IRType)
  | constQual (t : IRType)
  deriving DecidableEq

/-- Host types over which a Typeable impl may or may not exist: the mapped
primitives of ty.rs, raw pointers, and two representative host types with no
impl in the source (i128 and isize). -/
inductive HostType
  | unit
  | bool
  | char
  | i8
  | u8
  | i16
  | u16
  | i32
  | u32
  | i64
  | u64
  | f32
  | f64
  | usize
  | mutPtr (t : HostType)
  | constPtr (t : HostType)
  | i128
  | isize
  deriving DecidableEq

/-- The Typeable capability of ty.rs: some impl per typeable_def invocation
(unit maps to VOID, bool to BOOL, char to CHAR, i8 to SIGNED_CHAR, u8 to
UNSIGNED_CHAR, i16 to SHORT, u16 to UNSIGNED_SHORT, i32 to INT, u32 to
UNSIGNED_INT, i64 to LONG, u64 to UNSIGNED_LONG, f32 to FLOAT, f64 to
DOUBLE, usize to SIZE_T), the impl for a mut pointer takes the pointee impl
and applies gcc_jit_type_get_pointer, the impl for a const pointer
additionally applies make_const, and none where the source declares no impl
— so requesting a type with no mapping is rejected when the wrapper is
compiled, never at run time. -/
def typeableGetType : HostType → Option IRType
  | .unit => some (.prim .VOID)
  | .bool => some (.prim .BOOL)
  | .char => some (.prim .CHAR)
  | .i8 => some (.prim .SIGNED_CHAR)
  | .u8 => some (.prim .UNSIGNED_CHAR)
  | .i16 => some (.prim .SHORT)
  | .u16 => some (.prim .UNSIGNED_SHORT)
  | .i32 => some (.prim .INT)
  | .u32 => some (.prim .UNSIGNED_INT)
  | .i64 => some (.prim .LONG)
  | .u64 => some (.prim .UNSIGNED_LONG)
  | .f32 => some (.prim .FLOAT)
  | .f64 => some (.prim .DOUBLE)
  | .usize => some (.prim .SIZE_T)
  | .mutPtr t => (typeableGetType t).map .pointer
  | .constPtr t => (typeableGetType t).map (fun g => .constQual (.pointer g))
  | .i128 => none
  | .isize => none

/-- Context::new_type (ctx.rs): delegates to the Typeable capability of the
requested host type; callable only with static evidence that the capability
exists, mirroring that a missing impl fails the wrapper build. -/
def new_type (t : HostType) (h : (typeableGetType t).isSome) : IRType :=
  (typeableGetType t).get h

/-- Whether the runtime value v falls inside the inclusive range of the case. -/
def caseContains (v : Int) (c : SwitchCase) : Bool :=
  decide (c.min ≤ v) && decide (v ≤ c.max)

/-- Two switch cases with non-overlapping ranges (the specification requires
the ranges of the cases of one switch not to overlap). -/
def disjointCases (a b : SwitchCase) : Prop :=
  a.max < b.min ∨ b.max < a.min

/-- Modelled from the spec: the runtime dispatch of a block terminated by
end_with_switch (the runtime behavior is the engine's, not under src/) —
control transfers to the destination of the case whose range contains the
scrutinized value, and to the default block when no case range contains it. -/
def switchDispatch (v : Int) (cases : List SwitchCase) (defaultBlock : BlockId) : BlockId :=
  match cases.find? (caseContains v) with
  | some c => c.dest
  | none => defaultBlock

/-- The per-rvalue data the operator overloads of rvalue.rs read: the owning
engine context (gcc_jit_object_get_context of the rvalue upcast to an
object) and the rvalue's engine type handle (gcc_jit_rvalue_get_type). -/
structure RValueData where
  ctx : Nat
  ty : Nat
  deriving DecidableEq

/-- RValue::get_type (rvalue.rs): reads the engine type of the rvalue. -/
def RValueData.get_type (v : RValueData) : Nat :=
  v.ty

/-- The argument record an operator overload passes to
gcc_jit_context_new_binary_op. -/
structure BinaryOpCall where
  ctx : Nat
  loc : Option Nat
  op : BinOp
  resultTy : Nat
  lhs : RValueData
  rhs : RValueData
  deriving DecidableEq

/-- binary_operator_for (rvalue.rs): the body every generated operator method
shares — the context is taken from the left operand (the method receiver
upcast to an object), the location is null, the explicit result type is
rhs.get_type(), and the operands are passed left then right. -/
def binary_operator_for (op : BinOp) (self rhs : RValueData) : BinaryOpCall :=
  { ctx := self.ctx, loc := none, op := op, resultTy := rhs.get_type,
    lhs := self, rhs := rhs }

/-- The ten overloaded Rust operator traits instantiated for RValue in
rvalue.rs. -/
inductive RustBinOp
  | add
  | sub
  | mul
  | div
  | rem
  | bitand
  | bitor
  | bitxor
  | shl
  | shr
  deriving DecidableEq

/-- Which BinaryOp each overload passes, per the macro invocation list in
rvalue.rs. -/
def overloadBinOp : RustBinOp → BinOp
  | .add => .Plus
  | .sub => .Minus
  | .mul => .Mult
  | .div => .Divide
  | .rem => .Modulo
  | .bitand => .BitwiseAnd
  | .bitor => .BitwiseOr
  | .bitxor => .BitwiseXor
  | .shl => .LShift
  | .shr => .RShift

/-- The engine call the Rust expression a op b elaborates to, for each
overloaded operator. -/
def rustOperatorCall (o : RustBinOp) (a b : RValueData) : BinaryOpCall :=
  binary_operator_for (overloadBinOp o) a b

/-- CString::new as the wrapper uses it: fails exactly when the byte string
has an interior NUL (the wrapper unwraps the failure, i.e. panics), and
otherwise yields the bytes with a terminating NUL appended, the original
bytes unchanged. -/
def cstringNew (bytes : List UInt8) : Option (List UInt8) :=
  if (0 : UInt8) ∈ bytes then none else some (bytes ++ [0])

/-- The public wrapper operations that accept a string argument, one
constructor per call site holding a CString conversion in the source:
Context::add_command_line_option, add_driver_option, set_name,
compile_to_file, new_location, new_struct_type, new_opaque_struct_type,
new_union_type, new_field, new_function, new_string_literal,
dump_reproducer_to_file, new_parameter, get_builtin_function (ctx.rs);
Block::add_comment (block.rs); Function::dump_to_dot, new_block, new_local
(function.rs); CompileResult::get_function, get_global (ctx.rs). -/
inductive StringOp
  | addCommandLineOption
  | addDriverOption
  | setName
  | compileToFile
  | newLocationFilename
  | newStructTypeName
  | newOpaqueStructTypeName
  | newUnionTypeName
  | newFieldName
  | newFunctionName
  | newStringLiteral
  | dumpReproducerToFile
  | newParameterName
  | getBuiltinFunctionName
  | addCommentMessage
  | dumpToDotPath
  | newBlockName
  | newLocalName
  | resultGetFunctionName
  | resultGetGlobalName
  deriving DecidableEq

/-- What each string-accepting operation does with its string before calling
the engine: every call site in the source runs CString::new on the argument
and unwraps, then hands the engine the NUL-terminated buffer (none models the
unwrap panic on an interior NUL). -/
def stringToEngine : StringOp → List UInt8 → Option (List UInt8)
  | .addCommandLineOption, b => cstringNew b
  | .addDriverOption, b => cstringNew b
  | .setName, b => cstringNew b
  | .compileToFile, b => cstringNew b
  | .newLocationFilename, b => cstringNew b
  | .newStructTypeName, b => cstringNew b
  | .newOpaqueStructTypeName, b => cstringNew b
  | .newUnionTypeName, b => cstringNew b
  | .newFieldName, b => cstringNew b
  | .newFunctionName, b => cstringNew b
  | .newStringLiteral, b => cstringNew b
  | .dumpReproducerToFile, b => cstringNew b
  | .newParameterName, b => cstringNew b
  | .getBuiltinFunctionName, b => cstringNew b
  | .addCommentMessage, b => cstringNew b
  | .dumpToDotPath, b => cstringNew b
  | .newBlockName, b => cstringNew b
  | .newLocalName, b => cstringNew b
  | .resultGetFunctionName, b => cstringNew b
  | .resultGetGlobalName, b => cstringNew b

/-- Dispatching a switch whose first case does not contain the value reduces
to dispatching over the remaining cases. -/
theorem switchDispatch_cons_of_no_match {v : Int} {hd : SwitchCase}
    {tl : List SwitchCase} {dflt : BlockId} (h : caseContains v hd = false) :
    switchDispatch v (hd :: tl) dflt = switchDispatch v tl dflt := by
  unfold switchDispatch
  rw [List.find?_cons_of_neg _ (by simp [h])]

/-- Dispatching a switch whose first case contains the value goes to that
case's destination. -/
theorem switchDispatch_cons_of_match {v : Int} {hd : SwitchCase}
    {tl : List SwitchCase} {dflt : BlockId} (h : caseContains v hd = true) :
    switchDispatch v (hd :: tl) dflt = hd.dest := by
  unfold switchDispatch
  rw [List.find?_cons_of_pos _ h]

/-- Claim C1, counterexample: Block — one of the handle kinds the claim
enumerates as statically tied — carries no lifetime marker in its declaration
(block.rs), so nothing ties a Block value to the producing Context and it can
be used after the Context is gone or against a different Context. -/
theorem C1_block_handle_not_ctx_tied :
    HandleKind.block ∈ claimedTiedHandles ∧
      hasCtxLifetimeMarker HandleKind.block = false := by
  decide

/-- Claim C1 (amended): among the wrapper's handle structs, exactly Type and
Location are statically tied to the producing Context by a PhantomData
lifetime marker; Block, Case, RValue, LValue, Field, Function, Parameter,
Struct and Object are raw-pointer handles with no static tie. -/
theorem C1_ctx_tie_exactly_type_and_location :
    ∀ k, hasCtxLifetimeMarker k = true ↔
      (k = HandleKind.ty ∨ k = HandleKind.location) := by
  intro k
  cases k <;> decide

/-- Claim C2: a block follows the two-state machine Open/Terminated — a newly
created block is open; adding any statement (add_eval, add_assignment,
add_assignment_op, add_comment) requires an open block and keeps it open; any
of the five terminators moves an open block to terminated; and a terminated
block accepts neither further statements nor a second terminator. -/
theorem C2_block_state_machine :
    newBlock.isOpen = true ∧
    (∀ b s, b.isOpen = true → ∃ b', addStatement b s = some b' ∧ b'.isOpen = true) ∧
    (∀ b t, b.isOpen = true → ∃ b', endWith b t = some b' ∧ b'.isOpen = false) ∧
    (∀ b s, b.isOpen = false → addStatement b s = none) ∧
    (∀ b t, b.isOpen = false → endWith b t = none) := by
  refine ⟨rfl, ?_, ?_, ?_, ?_⟩
  · intro b s h
    simp only [BlockState.isOpen] at h
    exact ⟨⟨b.stmts ++ [s], none⟩, by simp [addStatement, h], rfl⟩
  · intro b t h
    simp only [BlockState.isOpen] at h
    exact ⟨⟨b.stmts, some t⟩, by simp [endWith, h], rfl⟩
  · intro b s h
    simp only [BlockState.isOpen] at h
    simp [addStatement, h]
  · intro b t h
    simp only [BlockState.isOpen] at h
    simp [endWith, h]

/-- Claim C2, witness: the state machine at concrete states — a fresh block
accepts a comment and stays open, a fresh block accepts a void return and
terminates, and a terminated block rejects a further statement and a second
terminator. -/
theorem C2_block_state_machine_witness :
    (∃ b', addStatement newBlock (Stmt.addComment "x") = some b' ∧ b'.isOpen = true) ∧
    (∃ b', endWith newBlock Terminator.endWithVoidReturn = some b' ∧ b'.isOpen = false) ∧
    addStatement ⟨[], some Terminator.endWithVoidReturn⟩ (Stmt.addComment "x") = none ∧
    endWith ⟨[], some Terminator.endWithVoidReturn⟩ Terminator.endWithVoidReturn = none :=
  ⟨C2_block_state_machine.2.1 newBlock (Stmt.addComment "x") rfl,
   C2_block_state_machine.2.2.1 newBlock Terminator.endWithVoidReturn rfl,
   C2_block_state_machine.2.2.2.1 ⟨[], some Terminator.endWithVoidReturn⟩
     (Stmt.addComment "x") rfl,
   C2_block_state_machine.2.2.2.2 ⟨[], some Terminator.endWithVoidReturn⟩
     Terminator.endWithVoidReturn rfl⟩

/-- Claim C3: fields may be attached to a struct exactly once after creation —
set_fields succeeds on a struct created opaque, a struct returned by
new_struct_type rejects set_fields, and after one successful set_fields a
second call is rejected whatever struct it started from. -/
theorem C3_set_fields_exactly_once :
    (∀ name fs, ∃ s', set_fields (new_opaque_struct_type name) fs = some s') ∧
    (∀ name fs fs', set_fields (new_struct_type name fs) fs' = none) ∧
    (∀ s fs s' fs', set_fields s fs = some s' → set_fields s' fs' = none) := by
  refine ⟨?_, ?_, ?_⟩
  · intro name fs
    exact ⟨⟨name, some fs⟩, rfl⟩
  · intro name fs fs'
    rfl
  · intro s fs s' fs' h
    obtain ⟨n, f⟩ := s
    cases f with
    | none =>
      simp only [set_fields, Option.some.injEq] at h
      subst h
      rfl
    | some l =>
      simp only [set_fields] at h
      exact Option.noConfusion h

/-- Claim C3, witness: a concrete two-step sequence — set_fields on the
struct obtained from one successful set_fields on an opaque struct is
rejected. -/
theorem C3_set_fields_exactly_once_witness :
    set_fields (new_struct_type "node" []) [] = none :=
  C3_set_fields_exactly_once.2.2 (new_opaque_struct_type "node") []
    (new_struct_type "node" []) [] rfl

/-- Claim C4: looking up a name the producing Context did not compile yields
the null pointer from both get_function and get_global, and never aborts (the
lookups are total functions). -/
theorem C4_missing_symbol_yields_null :
    (∀ r name, (∀ p ∈ r.functions, p.1 ≠ name) → get_function r name = 0) ∧
    (∀ r name, (∀ p ∈ r.globals, p.1 ≠ name) → get_global r name = 0) := by
  constructor
  · intro r name h
    have hn : r.functions.lookup name = none := by
      rw [List.lookup_eq_none_iff]
      intro p hp
      simp only [bne_iff_ne, ne_eq]
      exact fun e => h p hp e.symm
    simp [get_function, hn]
  · intro r name h
    have hn : r.globals.lookup name = none := by
      rw [List.lookup_eq_none_iff]
      intro p hp
      simp only [bne_iff_ne, ne_eq]
      exact fun e => h p hp e.symm
    simp [get_global, hn]

/-- Claim C4, witness: a concrete compiled result holding one function and
one global returns null for names it did not compile. -/
theorem C4_missing_symbol_yields_null_witness :
    get_function ⟨[("square", 7)], [("counter", 9)]⟩ "cube" = 0 ∧
    get_global ⟨[("square", 7)], [("counter", 9)]⟩ "missing" = 0 :=
  ⟨C4_missing_symbol_yields_null.1 ⟨[("square", 7)], [("counter", 9)]⟩ "cube"
     (by decide),
   C4_missing_symbol_yields_null.2 ⟨[("square", 7)], [("counter", 9)]⟩ "missing"
     (by decide)⟩

/-- Claim C5: every host primitive with a typeable_def instance maps to the
matching engine type enum; a mut pointer to a mapped type maps to the engine
pointer type, a const pointer additionally qualifies it const; host types
with no instance (i128, isize) have no mapping at all, so new_type — which
demands the mapping as a static precondition — can never fail at run time
and returns exactly the mapped type. -/
theorem C5_typeable_mapping :
    (∀ t g, typeableGetType t = some g →
      typeableGetType (.mutPtr t) = some (.pointer g)) ∧
    (∀ t g, typeableGetType t = some g →
      typeableGetType (.constPtr t) = some (.constQual (.pointer g))) ∧
    (∀ t g (h : (typeableGetType t).isSome), typeableGetType t = some g →
      new_type t h = g) ∧
    typeableGetType .unit = some (.prim .VOID) ∧
    typeableGetType .bool = some (.prim .BOOL) ∧
    typeableGetType .char = some (.prim .CHAR) ∧
    typeableGetType .i8 = some (.prim .SIGNED_CHAR) ∧
    typeableGetType .u8 = some (.prim .UNSIGNED_CHAR) ∧
    typeableGetType .i16 = some (.prim .SHORT) ∧
    typeableGetType .u16 = some (.prim .UNSIGNED_SHORT) ∧
    typeableGetType .i32 = some (.prim .INT) ∧
    typeableGetType .u32 = some (.prim .UNSIGNED_INT) ∧
    typeableGetType .i64 = some (.prim .LONG) ∧
    typeableGetType .u64 = some (.prim .UNSIGNED_LONG) ∧
    typeableGetType .f32 = some (.prim .FLOAT) ∧
    typeableGetType .f64 = some (.prim .DOUBLE) ∧
    typeableGetType .usize = some (.prim .SIZE_T) ∧
    typeableGetType .i128 = none ∧
    typeableGetType .isize = none := by
  refine ⟨?_, ?_, ?_, rfl, rfl, rfl, rfl, rfl, rfl, rfl, rfl, rfl, rfl, rfl,
    rfl, rfl, rfl, rfl, rfl⟩
  · intro t g h
    simp [typeableGetType, h]
  · intro t g h
    simp [typeableGetType, h]
  · intro t g h he
    simp [new_type, he]

/-- Claim C5, witness: the pointer instances and new_type evaluated at
concrete host types. -/
theorem C5_typeable_mapping_witness :
    typeableGetType (.mutPtr .i32) = some (.pointer (.prim .INT)) ∧
    typeableGetType (.constPtr .char) = some (.constQual (.pointer (.prim .CHAR))) ∧
    new_type .usize rfl = .prim .SIZE_T :=
  ⟨C5_typeable_mapping.1 .i32 (.prim .INT) rfl,
   C5_typeable_mapping.2.1 .char (.prim .CHAR) rfl,
   C5_typeable_mapping.2.2.1 .usize (.prim .SIZE_T) rfl rfl⟩

/-- Claim C6: a struct created opaque and then given N fields by one
set_fields call equals the struct created directly by new_struct_type with
the same name and the same fields. -/
theorem C6_opaque_then_set_fields_round_trip :
    ∀ name fs, set_fields (new_opaque_struct_type name) fs =
      some (new_struct_type name fs) :=
  fun _ _ => rfl

/-- Claim C7: switch dispatch — when no case range contains the value,
control goes to the default block; when the case ranges are pairwise
non-overlapping and some case contains the value, control goes to that
case's destination; in particular with cases min 0 max 0 to block 10, min 1
max 10 to block 20 and default 30, value 5 goes to 20 and value 50 to 30. -/
theorem C7_switch_dispatch :
    (∀ v cases dflt, (∀ c ∈ cases, caseContains v c = false) →
      switchDispatch v cases dflt = dflt) ∧
    (∀ (v : Int) (dflt : BlockId) (c : SwitchCase) (cases : List SwitchCase),
      List.Pairwise disjointCases cases → c ∈ cases → caseContains v c = true →
      switchDispatch v cases dflt = c.dest) ∧
    switchDispatch 5 [⟨0, 0, 10⟩, ⟨1, 10, 20⟩] 30 = 20 ∧
    switchDispatch 50 [⟨0, 0, 10⟩, ⟨1, 10, 20⟩] 30 = 30 := by
  refine ⟨?_, ?_, by decide, by decide⟩
  · intro v cases dflt h
    have hn : cases.find? (caseContains v) = none := by
      rw [List.find?_eq_none]
      intro x hx
      simp [h x hx]
    simp [switchDispatch, hn]
  · intro v dflt c cases
    induction cases with
    | nil =>
      intro _ hc _
      cases hc
    | cons hd tl ih =>
      intro hpair hc hv
      rcases List.mem_cons.mp hc with rfl | htl
      · rw [switchDispatch_cons_of_match hv]
      · have hdisj : hd.max < c.min ∨ c.max < hd.min :=
          (List.pairwise_cons.mp hpair).1 c htl
        have hhd : caseContains v hd = false := by
          cases hcc : caseContains v hd with
          | false => rfl
          | true =>
            exfalso
            simp only [caseContains, Bool.and_eq_true, decide_eq_true_eq] at hcc hv
            rcases hdisj with h1 | h1 <;> omega
        rw [switchDispatch_cons_of_no_match hhd]
        exact ih (List.pairwise_cons.mp hpair).2 htl hv

/-- Claim C7, witness: the two general dispatch statements applied to the
concrete case table at values 7 and 99. -/
theorem C7_switch_dispatch_witness :
    switchDispatch 7 [⟨0, 0, 10⟩, ⟨1, 10, 20⟩] 30 = 20 ∧
    switchDispatch 99 [⟨0, 0, 10⟩, ⟨1, 10, 20⟩] 30 = 30 :=
  ⟨C7_switch_dispatch.2.1 7 30 ⟨1, 10, 20⟩ [⟨0, 0, 10⟩, ⟨1, 10, 20⟩]
     (List.pairwise_cons.mpr
       ⟨fun c hc => by
          rcases List.mem_singleton.mp hc with rfl
          exact Or.inl (by decide),
        List.pairwise_singleton _ _⟩)
     (by decide) (by decide),
   C7_switch_dispatch.1 99 [⟨0, 0, 10⟩, ⟨1, 10, 20⟩] 30 (by decide)⟩

/-- Claim C8: dropping a CompileResult passes its result handle to the
engine's release entry point exactly once, and CompileResult is the only
wrapper type with a Drop implementation, hence the only resource requiring
explicit teardown. -/
theorem C8_compile_result_release_once :
    (∀ ptr, (compileResultDrop ptr).count (EngineCall.resultRelease ptr) = 1) ∧
    (∀ t, hasDropImpl t = true ↔ t = WrapperType.compileResult) := by
  constructor
  · intro ptr
    simp [compileResultDrop]
  · intro t
    constructor
    · intro h
      cases t with
      | context => simp [hasDropImpl] at h
      | compileResult => rfl
      | handle k => simp [hasDropImpl] at h
    · intro h
      subst h
      rfl

/-- Claim C9: each overloaded operator builds the binary operation in the
context of the left operand, with the right operand's type as the explicit
result type, a null location, and the operator named by the macro
invocation; when the operand types differ, the result type is the right
operand's type and not the left operand's. -/
theorem C9_operator_overloads :
    (∀ o a b, (rustOperatorCall o a b).ctx = a.ctx ∧
      (rustOperatorCall o a b).resultTy = b.get_type ∧
      (rustOperatorCall o a b).loc = none ∧
      (rustOperatorCall o a b).op = overloadBinOp o) ∧
    (∀ o a b, a.ty ≠ b.ty → (rustOperatorCall o a b).resultTy ≠ a.ty) := by
  constructor
  · intro o a b
    exact ⟨rfl, rfl, rfl, rfl⟩
  · intro o a b h
    exact fun e => h e.symm

/-- Claim C9, witness: the addition overload applied to rvalues of different
types yields a call whose explicit result type is not the left operand's. -/
theorem C9_operator_overloads_witness :
    (rustOperatorCall RustBinOp.add ⟨1, 100⟩ ⟨2, 200⟩).resultTy ≠ 100 :=
  C9_operator_overloads.2 RustBinOp.add ⟨1, 100⟩ ⟨2, 200⟩ (by decide)

/-- Claim C10: every string-accepting wrapper operation panics (the CString
conversion fails and is unwrapped) exactly when the argument holds an
interior NUL byte, and otherwise forwards the bytes unchanged with a
terminating NUL appended. -/
theorem C10_string_nul_handling :
    ∀ op bytes,
      ((0 : UInt8) ∈ bytes → stringToEngine op bytes = none) ∧
      (¬ (0 : UInt8) ∈ bytes →
        stringToEngine op bytes = some (bytes ++ [0])) := by
  intro op bytes
  constructor
  · intro h
    cases op <;> simp [stringToEngine, cstringNew, h]
  · intro h
    cases op <;> simp [stringToEngine, cstringNew, h]

/-- Claim C10, witness: a string literal with an interior NUL panics, and a
comment without one is forwarded NUL-terminated. -/
theorem C10_string_nul_handling_witness :
    stringToEngine StringOp.newStringLiteral [104, 0, 105] = none ∧
    stringToEngine StringOp.addCommentMessage [104, 105] = some [104, 105, 0] :=
  ⟨(C10_string_nul_handling StringOp.newStringLiteral [104, 0, 105]).1 (by decide),
   (C10_string_nul_handling StringOp.addCommentMessage [104, 105]).2 (by decide)⟩

end GccjitRs
